import Mathlib

/-!
Verification of `rules_minidock_tools` against its specification.

Shallow embedding of the container-spec data model and the operations of
`src/container_specs/*`, `src/merge_outputs.rs`, `src/registry/http/*`.
Pure Rust functions become Lean functions; serde-derived JSON
serialization is modelled by explicit functions into a small JSON AST;
the stateful HTTP retry loop becomes a step function on an explicit
state record driven by a sequence of classified outcomes.
-/

namespace Minidock

/-- `SpecificationType` from `src/container_specs/mod.rs` (default `Oci`). -/
inductive SpecificationType where
  | Oci
  | Docker
deriving DecidableEq

/-- `BlobReferenceType` from `src/container_specs/blob_reference.rs` (default `Config`). -/
inductive BlobReferenceType where
  | Config
  | LayerGz
  | LayerZstd
  | Layer
deriving DecidableEq

/-- `BlobReference` from `src/container_specs/blob_reference.rs`; `size` is a `u64`
(no arithmetic is performed on it, so it is modelled as `Nat`). -/
structure BlobReference where
  blob_reference_type : BlobReferenceType
  specification_type : SpecificationType
  size : Nat
  digest : String
deriving DecidableEq

/-- Rust `BlobReference::default()` (derive): all fields at their defaults. -/
def BlobReference.defaultVal : BlobReference :=
  { blob_reference_type := .Config, specification_type := .Oci, size := 0, digest := "" }

/-- Minimal JSON value AST used to model `serde_json` output. -/
inductive Json where
  | null
  | str (s : String)
  | num (n : Int)
  | bool (b : Bool)
  | arr (elems : List Json)
  | obj (fields : List (String × Json))

/-- Association-list lookup used to model serde reading a named field of a JSON object. -/
def lookupList : List (String × Json) → String → Option Json
  | [], _ => none
  | (k1, v) :: rest, k => if k1 = k then some v else lookupList rest k

/-- Field lookup on a JSON value (an object's first binding for the key). -/
def Json.lookup : Json → String → Option Json
  | .obj fs, k => lookupList fs k
  | _, _ => none

def Json.asString : Json → Option String
  | .str s => some s
  | _ => none

def Json.asNat : Json → Option Nat
  | .num n => if n < 0 then none else some n.toNat
  | _ => none

/-- The top-level fields of a JSON object (empty for non-objects). -/
def Json.topFields : Json → List (String × Json)
  | .obj fs => fs
  | _ => []

/-- Whether some top-level field of a JSON object carries the JSON value `null`. -/
def Json.hasNullField (j : Json) : Bool :=
  j.topFields.any fun p =>
    match p.2 with
    | .null => true
    | _ => false

/-- The media-type string written by `impl Serialize for BlobReference`
(`src/container_specs/serde_impl.rs`, lines 63-82). The Rust `match` has no arm
for `LayerZstd`, modelled here as `none`. -/
def mediaTypeFor : SpecificationType → BlobReferenceType → Option String
  | .Oci, .Config => some "application/vnd.oci.image.config.v1+json"
  | .Docker, .Config => some "application/vnd.docker.container.image.v1+json"
  | .Oci, .LayerGz => some "application/vnd.oci.image.layer.v1.tar+gzip"
  | .Oci, .Layer => some "application/vnd.oci.image.layer.v1.tar"
  | .Docker, .LayerGz => some "application/vnd.docker.image.rootfs.diff.tar.gzip"
  | .Docker, .Layer => some "application/vnd.docker.image.rootfs.diff.tar"
  | _, .LayerZstd => none

/-- The media-type match of `impl Deserialize for BlobReference`
(`src/container_specs/serde_impl.rs`, lines 25-45). Note the source maps
`application/vnd.docker.image.rootfs.diff.tar.gzip` to `(Docker, Layer)`. -/
def parseMediaType (s : String) : Option (SpecificationType × BlobReferenceType) :=
  if s = "application/vnd.oci.image.config.v1+json" then some (.Oci, .Config)
  else if s = "application/vnd.docker.container.image.v1+json" then some (.Docker, .Config)
  else if s = "application/vnd.oci.image.layer.v1.tar+gzip" then some (.Oci, .LayerGz)
  else if s = "application/vnd.oci.image.layer.v1.tar" then some (.Oci, .Layer)
  else if s = "application/vnd.docker.image.rootfs.diff.tar.gzip" then some (.Docker, .Layer)
  else if s = "application/vnd.docker.image.rootfs.diff.tar" then some (.Docker, .Layer)
  else none

/-- `impl Serialize for BlobReference`: the JSON object `{mediaType, size, digest}`. -/
def BlobReference.toJson (b : BlobReference) : Option Json :=
  (mediaTypeFor b.specification_type b.blob_reference_type).map fun mt =>
    .obj [("mediaType", .str mt), ("size", .num b.size), ("digest", .str b.digest)]

/-- `impl Deserialize for BlobReference`: read `{mediaType, size, digest}` and map
the media type back to a `(specification_type, blob_reference_type)` pair. -/
def BlobReference.fromJson (j : Json) : Option BlobReference := do
  let mt ← (j.lookup "mediaType").bind Json.asString
  let size ← (j.lookup "size").bind Json.asNat
  let digest ← (j.lookup "digest").bind Json.asString
  let sk ← parseMediaType mt
  pure { blob_reference_type := sk.2, specification_type := sk.1, size := size, digest := digest }

/-- `Manifest` from `src/container_specs/manifest.rs`; `schema_version` is a `u16`
(modelled as `Nat`, no arithmetic). -/
structure Manifest where
  schema_version : Nat
  name : Option String
  specification_type : SpecificationType
  config : BlobReference
  layers : List BlobReference
deriving DecidableEq

/-- Rust `Manifest::default()` (derive): `schema_version = 0`, `Oci`, default config,
no layers. -/
def Manifest.defaultVal : Manifest :=
  { schema_version := 0, name := none, specification_type := .Oci,
    config := BlobReference.defaultVal, layers := [] }

/-- `Manifest::media_type` (`src/container_specs/manifest.rs`, lines 19-24). -/
def Manifest.media_type (m : Manifest) : String :=
  match m.specification_type with
  | .Oci => "application/vnd.oci.image.manifest.v1+json"
  | .Docker => "application/vnd.docker.distribution.manifest.v2+json"

/-- `Manifest::set_specification_type` (`src/container_specs/manifest.rs`, lines 70-77).
The source assigns `self.config.specification_type` and every layer's
`specification_type`; it contains no assignment to `self.specification_type`. -/
def Manifest.set_specification_type (m : Manifest) (s : SpecificationType) : Manifest :=
  { m with
    config := { m.config with specification_type := s },
    layers := m.layers.map fun l => { l with specification_type := s } }

/-- `impl Serialize for Manifest`: fields in the order
`mediaType, schemaVersion, config, layers`. -/
def Manifest.toJson (m : Manifest) : Option Json := do
  let cfg ← m.config.toJson
  let layers ← m.layers.mapM BlobReference.toJson
  pure (.obj [("mediaType", .str m.media_type), ("schemaVersion", .num m.schema_version),
              ("config", cfg), ("layers", .arr layers)])

/-- Modelled from the spec: the `hash` module (`Sha256Value`) is referenced by the
sources but not present under `src/`; per spec §3 a Sha256 value is a byte digest
rendered as lowercase hex when displayed. -/
structure Sha256Value where
  bytes : List Nat
deriving DecidableEq

/-- One lowercase hexadecimal digit. -/
def hexDigit (n : Nat) : Char :=
  if n < 10 then Char.ofNat (48 + n) else Char.ofNat (87 + n)

/-- Two lowercase hex digits of one byte. -/
def byteToHex (b : Nat) : String :=
  String.mk [hexDigit (b / 16 % 16), hexDigit (b % 16)]

/-- Modelled from the spec: `Display for Sha256Value` renders the digest bytes as
lowercase hex (spec §3). -/
def Sha256Value.toHex (s : Sha256Value) : String :=
  String.join (s.bytes.map byteToHex)

/-- `Manifest::update_config` (`src/container_specs/manifest.rs`, lines 79-89): replace
`config` with a `BlobReference` whose `size` and `digest` are the given compressed
size and `sha256:<hex>` digest, keeping the old config's remaining fields
(functional-record-update `..self.config`). -/
def Manifest.update_config (m : Manifest) (sha : Sha256Value) (len : Nat) : Manifest :=
  { m with
    config := { m.config with size := len, digest := "sha256:" ++ sha.toHex } }

/-- `Manifest::add_layer` (`src/container_specs/manifest.rs`, lines 91-103). -/
def Manifest.add_layer (m : Manifest) (sha : Sha256Value) (len : Nat)
    (brt : BlobReferenceType) : Manifest :=
  { m with
    layers := m.layers ++
      [{ blob_reference_type := brt, specification_type := m.specification_type,
         size := len, digest := "sha256:" ++ sha.toHex }] }

/-- `ExecutionConfig` from `src/container_specs/config.rs` (lines 7-61). Rust
`HashMap`s are unordered; they are modelled as association lists. -/
structure ExecutionConfig where
  user : Option String
  exposed_ports : Option (List (String × Unit))
  env : Option (List String)
  entrypoint : Option (List String)
  cmd : Option (List String)
  volumes : Option (List String)
  working_dir : Option String
  labels : Option (List (String × String))
  stop_signal : Option String
  memory : Option Int
  memory_swap : Option Int
  cpu_shares : Option Int
  healthcheck : Option (List (String × String))
deriving DecidableEq

def ExecutionConfig.defaultVal : ExecutionConfig :=
  { user := none, exposed_ports := none, env := none, entrypoint := none, cmd := none,
    volumes := none, working_dir := none, labels := none, stop_signal := none,
    memory := none, memory_swap := none, cpu_shares := none, healthcheck := none }

/-- `HistoryItem` from `src/container_specs/config.rs` (lines 136-153). -/
structure HistoryItem where
  created : Option String
  author : Option String
  created_by : Option String
  comment : Option String
  empty_layer : Option Bool
deriving DecidableEq

/-- `RootFs` from `src/container_specs/config.rs` (lines 155-164); the Rust field
`fs_type` is serialized under the key `type`. -/
structure RootFs where
  fs_type : Option String
  diff_ids : Option (List String)
deriving DecidableEq

/-- Rust `RootFs::default()` (derive): both fields `None`. -/
def RootFs.defaultVal : RootFs := { fs_type := none, diff_ids := none }

/-- `ConfigDelta` from `src/container_specs/config.rs` (lines 278-312). -/
structure ConfigDelta where
  created : Option String
  author : Option String
  architecture : Option String
  os : Option String
  os_version : Option String
  os_features : Option String
  variant : Option String
  config : Option ExecutionConfig
  rootfs : Option RootFs
  history : Option (List HistoryItem)
deriving DecidableEq

/-- Rust `ConfigDelta::default()` (derive): every field `None`. -/
def ConfigDelta.defaultVal : ConfigDelta :=
  { created := none, author := none, architecture := none, os := none, os_version := none,
    os_features := none, variant := none, config := none, rootfs := none, history := none }

/-- serde's serialization of an `Option` field without `skip_serializing_if`:
`None` is written as JSON `null`. -/
def optJson {α : Type} (f : α → Json) : Option α → Json
  | none => .null
  | some a => f a

def strJson (s : String) : Json := .str s

def strListJson (l : List String) : Json := .arr (l.map Json.str)

/-- serde_json writes a Rust `()` value as JSON `null`, so `HashMap<String, ()>`
becomes an object whose values are all `null`. -/
def unitMapJson (m : List (String × Unit)) : Json :=
  .obj (m.map fun p => (p.1, Json.null))

def strMapJson (m : List (String × String)) : Json :=
  .obj (m.map fun p => (p.1, Json.str p.2))

/-- serde-derived `Serialize for ExecutionConfig`: every field is emitted under its
`rename`d key, in declaration order; `None` becomes `null`. -/
def ExecutionConfig.toJson (c : ExecutionConfig) : Json :=
  .obj [("User", optJson strJson c.user),
        ("ExposedPorts", optJson unitMapJson c.exposed_ports),
        ("Env", optJson strListJson c.env),
        ("Entrypoint", optJson strListJson c.entrypoint),
        ("Cmd", optJson strListJson c.cmd),
        ("Volumes", optJson strListJson c.volumes),
        ("WorkingDir", optJson strJson c.working_dir),
        ("Labels", optJson strMapJson c.labels),
        ("StopSignal", optJson strJson c.stop_signal),
        ("Memory", optJson Json.num c.memory),
        ("MemorySwap", optJson Json.num c.memory_swap),
        ("CpuShares", optJson Json.num c.cpu_shares),
        ("Healthcheck", optJson strMapJson c.healthcheck)]

/-- serde-derived `Serialize for HistoryItem`. -/
def HistoryItem.toJson (h : HistoryItem) : Json :=
  .obj [("created", optJson strJson h.created),
        ("author", optJson strJson h.author),
        ("created_by", optJson strJson h.created_by),
        ("comment", optJson strJson h.comment),
        ("empty_layer", optJson Json.bool h.empty_layer)]

/-- serde-derived `Serialize for RootFs`: the `fs_type` field is renamed to `type`. -/
def RootFs.toJson (r : RootFs) : Json :=
  .obj [("type", optJson strJson r.fs_type),
        ("diff_ids", optJson strListJson r.diff_ids)]

def historyListJson (l : List HistoryItem) : Json := .arr (l.map HistoryItem.toJson)

/-- serde-derived `Serialize for ConfigDelta`: every field emitted in declaration
order (`os.version` and `os.features` are dotted keys); `None` becomes `null`. -/
def ConfigDelta.toJson (c : ConfigDelta) : Json :=
  .obj [("created", optJson strJson c.created),
        ("author", optJson strJson c.author),
        ("architecture", optJson strJson c.architecture),
        ("os", optJson strJson c.os),
        ("os.version", optJson strJson c.os_version),
        ("os.features", optJson strJson c.os_features),
        ("variant", optJson strJson c.variant),
        ("config", optJson ExecutionConfig.toJson c.config),
        ("rootfs", optJson RootFs.toJson c.rootfs),
        ("history", optJson historyListJson c.history)]

/-- `HashMap::extend` modelled on an association list: each binding of `other`
overwrites any existing binding for the same key. -/
def mapExtend (base other : List (String × String)) : List (String × String) :=
  other.foldl (fun acc kv => acc.filter (fun p => p.1 != kv.1) ++ [kv]) base

/-- `ExecutionConfig::update_with` (`src/container_specs/config.rs`, lines 63-134):
scalar options are replaced when `other` has `Some`; `env` and `volumes` are
concatenated; `labels` is map-extended. -/
def ExecutionConfig.update_with (c other : ExecutionConfig) : ExecutionConfig :=
  { c with
    user := match other.user with | some e => some e | none => c.user,
    exposed_ports := match other.exposed_ports with | some e => some e | none => c.exposed_ports,
    env := match other.env with
      | some e => match c.env with
        | some oe => some (oe ++ e)
        | none => some e
      | none => c.env,
    entrypoint := match other.entrypoint with | some e => some e | none => c.entrypoint,
    cmd := match other.cmd with | some e => some e | none => c.cmd,
    volumes := match other.volumes with
      | some e => match c.volumes with
        | some oe => some (oe ++ e)
        | none => some e
      | none => c.volumes,
    working_dir := match other.working_dir with | some e => some e | none => c.working_dir,
    labels := match other.labels with
      | some e => match c.labels with
        | some oe => some (mapExtend oe e)
        | none => some e
      | none => c.labels,
    stop_signal := match other.stop_signal with | some e => some e | none => c.stop_signal,
    memory := match other.memory with | some e => some e | none => c.memory,
    memory_swap := match other.memory_swap with | some e => some e | none => c.memory_swap,
    cpu_shares := match other.cpu_shares with | some e => some e | none => c.cpu_shares,
    healthcheck := match other.healthcheck with | some e => some e | none => c.healthcheck }

/-- `RootFs::update_with` (`src/container_specs/config.rs`, lines 177-186). -/
def RootFs.update_with (r other : RootFs) : RootFs :=
  { r with
    fs_type := match other.fs_type with | some e => some e | none => r.fs_type,
    diff_ids := match other.diff_ids with | some e => some e | none => r.diff_ids }

/-- `RootFs::add_layer` (`src/container_specs/config.rs`, lines 188-197): create the
`diff_ids` vector if absent, then push `sha256:<hex>` of the uncompressed digest.
The source does not touch `fs_type`. -/
def RootFs.add_layer (r : RootFs) (sha : Sha256Value) : RootFs :=
  let base := match r.diff_ids with | none => [] | some l => l
  { r with diff_ids := some (base ++ ["sha256:" ++ sha.toHex]) }

/-- `ConfigDelta::update_with` (`src/container_specs/config.rs`, lines 222-274). -/
def ConfigDelta.update_with (c other : ConfigDelta) : ConfigDelta :=
  { c with
    created := match other.created with | some e => some e | none => c.created,
    author := match other.author with | some e => some e | none => c.author,
    architecture := match other.architecture with | some e => some e | none => c.architecture,
    os := match other.os with | some e => some e | none => c.os,
    os_version := match other.os_version with | some e => some e | none => c.os_version,
    os_features := match other.os_features with | some e => some e | none => c.os_features,
    variant := match other.variant with | some e => some e | none => c.variant,
    config := match other.config with
      | some e => match c.config with
        | some cfg => some (cfg.update_with e)
        | none => some e
      | none => c.config,
    rootfs := match other.rootfs with
      | some e => match c.rootfs with
        | some cfg => some (cfg.update_with e)
        | none => some e
      | none => c.rootfs,
    history := match other.history with
      | some e => match c.history with
        | some cfg => some (cfg ++ e)
        | none => some e
      | none => c.history }

/-- `ConfigDelta::add_layer` (`src/container_specs/config.rs`, lines 349-358): create
a default `RootFs` if absent, then delegate to `RootFs::add_layer`. -/
def ConfigDelta.add_layer (c : ConfigDelta) (sha : Sha256Value) : ConfigDelta :=
  let rf := match c.rootfs with | none => RootFs.defaultVal | some r => r
  { c with rootfs := some (rf.add_layer sha) }

/-- `PathPair` from `src/lib.rs`. -/
structure PathPair where
  short_path : String
  path : String
deriving DecidableEq

/-- `RemoteMetadata` from `src/merge_config.rs` (lines 16-23). -/
structure RemoteMetadata where
  config : Option PathPair
  manifest : Option PathPair
  registry : Option String
  repository : Option String
  digest : Option String
deriving DecidableEq

/-- `Info` from `src/merge_config.rs` (lines 25-29); `merge` feeds `info.config`
into `ConfigDelta::update_with`, so the config fragment is a `ConfigDelta`. -/
structure Info where
  data : Option PathPair
  config : Option ConfigDelta
deriving DecidableEq

/-- `MergeConfig` from `src/merge_config.rs` (lines 31-35). -/
structure MergeConfig where
  infos : List Info
  remote_metadata : Option RemoteMetadata
deriving DecidableEq

/-- `OutputLayer` from `src/merge_outputs.rs` (lines 12-19). -/
structure OutputLayer where
  content : PathPair
  sha256 : Sha256Value
  inner_sha_v : Sha256Value
  compressed_size : Nat
  uncompressed_size : Nat
deriving DecidableEq

/-- The filesystem and hashing environment `merge` runs against: file existence,
parse results of config/manifest files, and the compressed/uncompressed
`(Sha256Value, DataLen)` of each layer file (`none` models an IO/parse/hash
failure, which `merge` propagates with `?`). -/
structure MergeEnv where
  pathExists : String → Bool
  parseConfig : String → Option ConfigDelta
  parseManifest : String → Option Manifest
  hashCompressed : String → Option (Sha256Value × Nat)
  hashUncompressed : String → Option (Sha256Value × Nat)

/-- Errors surfaced by `merge` (`bail!` and `?` sites in `src/merge_outputs.rs`). -/
inductive MergeError where
  | missingPath (p : String)
  | parseFailure (p : String)
  | hashFailure (p : String)
deriving DecidableEq

/-- `rel_as_path` (`src/merge_outputs.rs`, lines 38-43): join the relative search
path onto a relative name when one is configured. -/
def relAsPath (rsp : Option String) (rel : String) : String :=
  match rsp with
  | some p => p ++ "/" ++ rel
  | none => rel

/-- The state threaded through `merge`'s main loop. -/
def MergeState := ConfigDelta × Manifest × List OutputLayer

/-- Lines 50-59 of `src/merge_outputs.rs`: load `remote_metadata.config` into `cfg`
(replacing the default), bailing when the path is missing and propagating parse
errors. -/
def loadRemoteConfig (env : MergeEnv) (rsp : Option String) (rm : RemoteMetadata) :
    Except MergeError ConfigDelta :=
  match rm.config with
  | none => .ok ConfigDelta.defaultVal
  | some pp =>
    let p := relAsPath rsp pp.path
    if env.pathExists p then
      match env.parseConfig p with
      | some c => .ok c
      | none => .error (.parseFailure p)
    else .error (.missingPath p)

/-- Lines 62-72 of `src/merge_outputs.rs`: load `remote_metadata.manifest` into
`manifest` (replacing the default), bailing when the path is missing. The source
contains no comparison of the existing and incoming layer lists. -/
def loadRemoteManifest (env : MergeEnv) (rsp : Option String) (rm : RemoteMetadata) :
    Except MergeError Manifest :=
  match rm.manifest with
  | none => .ok Manifest.defaultVal
  | some pp =>
    let p := relAsPath rsp pp.path
    if env.pathExists p then
      match env.parseManifest p with
      | some m => .ok m
      | none => .error (.parseFailure p)
    else .error (.missingPath p)

/-- Lines 45-73 of `src/merge_outputs.rs`: the initial `(cfg, manifest)` pair, with
remote metadata applied when present. -/
def initBase (env : MergeEnv) (mc : MergeConfig) (rsp : Option String) :
    Except MergeError (ConfigDelta × Manifest) :=
  match mc.remote_metadata with
  | none => .ok (ConfigDelta.defaultVal, Manifest.defaultVal)
  | some rm =>
    match loadRemoteConfig env rsp rm with
    | .error e => .error e
    | .ok cfg =>
      match loadRemoteManifest env rsp rm with
      | .error e => .error e
      | .ok man => .ok (cfg, man)

/-- Lines 82-124 of `src/merge_outputs.rs`: the first hashing pass. Every
`info.data` path must exist and both its hash tasks must succeed; in a pure model
the lookup table built there coincides with the environment's hash functions, so
the pass reduces to this check. -/
def checkPassOne (env : MergeEnv) (mc : MergeConfig) (rsp : Option String) :
    Except MergeError Unit :=
  mc.infos.foldlM
    (fun _ info =>
      match info.data with
      | none => .ok ()
      | some layer =>
        let p := relAsPath rsp layer.path
        if env.pathExists p then
          match env.hashCompressed p, env.hashUncompressed p with
          | some _, some _ => .ok ()
          | _, _ => .error (.hashFailure p)
        else .error (.missingPath p))
    ()

/-- Lines 134-136 of `src/merge_outputs.rs`: apply `info.config` to the
accumulated `ConfigDelta` via `update_with` when present. -/
def applyInfoConfig (cfg : ConfigDelta) (info : Info) : ConfigDelta :=
  match info.config with
  | some c => cfg.update_with c
  | none => cfg

/-- Lines 133-166 of `src/merge_outputs.rs`: one iteration of the main loop. Apply
`info.config` via `update_with`, then for `info.data` append the uncompressed
digest to `cfg.rootfs.diff_ids`, a `LayerGz` blob reference to `manifest.layers`,
and an `OutputLayer` record. -/
def processInfo (env : MergeEnv) (rsp : Option String) (st : MergeState) (info : Info) :
    Except MergeError MergeState :=
  match info.data with
  | none => .ok (applyInfoConfig st.1 info, st.2.1, st.2.2)
  | some layer =>
    if env.pathExists (relAsPath rsp layer.path) then
      match env.hashCompressed (relAsPath rsp layer.path),
            env.hashUncompressed (relAsPath rsp layer.path) with
      | some ch, some uh =>
        .ok ((applyInfoConfig st.1 info).add_layer uh.1,
             st.2.1.add_layer ch.1 ch.2 .LayerGz,
             st.2.2 ++ [{ content := layer, sha256 := ch.1, inner_sha_v := uh.1,
                          compressed_size := ch.2, uncompressed_size := uh.2 }])
      | _, _ => .error (.hashFailure (relAsPath rsp layer.path))
    else .error (.missingPath (relAsPath rsp layer.path))

/-- `merge` (`src/merge_outputs.rs`, lines 26-169): remote metadata first, then the
hashing pass, then external execution configs (each wrapped in an otherwise-empty
`ConfigDelta`), then the per-info loop. -/
def merge (env : MergeEnv) (mc : MergeConfig) (rsp : Option String)
    (externals : List ExecutionConfig) : Except MergeError MergeState :=
  match initBase env mc rsp with
  | .error e => .error e
  | .ok base =>
    match checkPassOne env mc rsp with
    | .error e => .error e
    | .ok _ =>
      let cfg1 := externals.foldl
        (fun c ec => c.update_with { ConfigDelta.defaultVal with config := some ec }) base.1
      mc.infos.foldlM (processInfo env rsp) (cfg1, base.2, [])

/-- Rust's `str::starts_with('/')`, on the character list of the string. -/
def startsWithSlash (s : String) : Bool :=
  match s.data with
  | [] => false
  | c :: _ => c = '/'

/-- `HttpRegistry::v2_from_path` (`src/registry/http/mod.rs`, lines 163-173): bail
unless the path is empty or starts with `/`; the URI path becomes `/v2<path>`. -/
def v2_from_path (path : String) : Option String :=
  if path ≠ "" && !startsWithSlash path then none
  else some ("/v2" ++ path)

/-- `HttpRegistry::repository_uri_from_path` (`src/registry/http/mod.rs`, lines
175-181): require a leading `/` and delegate to `v2_from_path` with
`/<repository><path>`. -/
def repository_uri_from_path (repository path : String) : Option String :=
  if !startsWithSlash path then none
  else v2_from_path ("/" ++ repository ++ path)

/-- The path argument `try_copy_from` passes to `repository_uri_from_path`
(`src/registry/http/copy_operations.rs`, line 34):
`format!("/uploads/?mount={}from={}", digest, source_registry)`. -/
def tryCopyFromPath (digest source_registry : String) : String :=
  "/uploads/?mount=" ++ digest ++ "from=" ++ source_registry

/-- The full URI path `try_copy_from` issues its POST against. -/
def tryCopyFromUri (repository source_registry digest : String) : Option String :=
  repository_uri_from_path repository (tryCopyFromPath digest source_registry)

/-- The status handling of `try_copy_from` (`copy_operations.rs`, lines 43-49):
404 reports `false`, 201 reports `true`, anything else is an error. -/
def tryCopyFromStatus (status : Nat) : Except String Bool :=
  if status = 404 then .ok false
  else if status = 201 then .ok true
  else .error "Failed to request"

/-- `download_blob` (`src/registry/http/blob.rs`, lines 46-114) with the transport
abstracted: `shaFn` is the sha256 function applied to the streamed bytes, `status`
the response status, `chunks` the body chunks. A non-200 status and a digest
mismatch bail; the declared `length` appears only in the mismatch message. -/
def download_blob (shaFn : List Nat → Sha256Value) (status : Nat)
    (chunks : List (List Nat)) (digest : String) (length : Nat) : Except String Unit :=
  if status ≠ 200 then .error "Attempted to download blob, bad status code"
  else
    let bytes := chunks.flatten
    let sha_str := "sha256:" ++ (shaFn bytes).toHex
    if digest ≠ sha_str then .error "Download produced the incorrect sha"
    else .ok ()

/-- A URI as the retry loop manipulates it: an optional host (scheme and authority)
and a path-and-query component. -/
structure MUri where
  host : Option String
  pathAndQuery : String
deriving DecidableEq

/-- The URI rebasing of the `Redirection` arm (`src/registry/http/http_cli/mod.rs`,
lines 80-97): a new URI with a host replaces the old entirely; one without a host
keeps the previous authority and substitutes only the path and query. -/
def rebaseUri (old new : MUri) : MUri :=
  match new.host with
  | some _ => new
  | none => { old with pathAndQuery := new.pathAndQuery }

/-- `RequestFailType` (`src/registry/http/http_cli/private_impl.rs`, lines 100-112),
payloads elided. `anyhow` also stands for errors propagated early with `?`. -/
inductive RequestError where
  | connect
  | server
  | hyper
  | anyhow
  | auth
  | redirection
deriving DecidableEq

/-- The classified result of one `run_single_request` call, as seen by the retry
loop. `redirect` carries the parse result of the `Location` URL (`none` models a
parse failure, which the loop propagates with `?`); `authFailure` carries whether
the subsequent `authenticate_request` flow succeeds. -/
inductive Outcome where
  | ok
  | redirect (parsed : Option MUri)
  | connectError
  | serverError
  | hyperError
  | anyhowError
  | authFailure (flowSucceeds : Bool)
deriving DecidableEq

/-- The `RequestFailType` value a breaking iteration surfaces for each outcome. -/
def Outcome.errOf : Outcome → RequestError
  | .ok => .anyhow
  | .redirect _ => .redirection
  | .connectError => .connect
  | .serverError => .server
  | .hyperError => .hyper
  | .anyhowError => .anyhow
  | .authFailure _ => .auth

/-- What `HttpCli::request` returns: a response, or the last classified error. -/
inductive ReqResult where
  | success
  | failed (e : RequestError)
deriving DecidableEq

/-- The mutable state of `HttpCli::request`'s loop (`mod.rs`, lines 57-60):
the current URI, the two counters, and whether `auth_info` holds a token. -/
structure ReqState where
  uri : MUri
  attempt : Nat
  authAttempt : Nat
  authInfo : Bool
deriving DecidableEq

inductive StepResult where
  | done (r : ReqResult)
  | next (s : ReqState)
deriving DecidableEq

/-- One iteration of the `loop` in `HttpCli::request` (`mod.rs`, lines 61-132).
`Ok` returns; any error first checks
`attempt > retries || auth_attempt > max(retries, 3)` and breaks with that error
when exhausted; otherwise `attempt += 1` and the error is classified: redirects
rebase the URI and drop the token, connect and server errors just retry,
hyper/anyhow errors are terminal, and an auth failure runs the token flow,
undoes the `attempt` increment (`attempt + 1 - 1`) and counts `auth_attempt`. -/
def requestStep (retries : Nat) (s : ReqState) (o : Outcome) : StepResult :=
  match o with
  | .ok => .done .success
  | .redirect p =>
    if s.attempt > retries ∨ s.authAttempt > Nat.max retries 3 then .done (.failed .redirection)
    else
      match p with
      | none => .done (.failed .anyhow)
      | some u =>
        .next { s with uri := rebaseUri s.uri u, attempt := s.attempt + 1, authInfo := false }
  | .connectError =>
    if s.attempt > retries ∨ s.authAttempt > Nat.max retries 3 then .done (.failed .connect)
    else .next { s with attempt := s.attempt + 1 }
  | .serverError =>
    if s.attempt > retries ∨ s.authAttempt > Nat.max retries 3 then .done (.failed .server)
    else .next { s with attempt := s.attempt + 1 }
  | .hyperError =>
    if s.attempt > retries ∨ s.authAttempt > Nat.max retries 3 then .done (.failed .hyper)
    else .done (.failed .hyper)
  | .anyhowError =>
    if s.attempt > retries ∨ s.authAttempt > Nat.max retries 3 then .done (.failed .anyhow)
    else .done (.failed .anyhow)
  | .authFailure flow =>
    if s.attempt > retries ∨ s.authAttempt > Nat.max retries 3 then .done (.failed .auth)
    else if flow then
      .next { s with
              attempt := s.attempt + 1 - 1,
              authAttempt := s.authAttempt + 1,
              authInfo := true }
    else .done (.failed .anyhow)

/-- The loop of `HttpCli::request`, driven by the sequence of classified outcomes
of successive `run_single_request` calls; `fuel` bounds the number of iterations
and `i` indexes the next outcome. Returns the result together with the state the
loop ended in, or `none` if the fuel ran out first. -/
def runRequestAux (retries : Nat) (outcomes : Nat → Outcome) :
    Nat → ReqState → Nat → Option (ReqResult × ReqState)
  | 0, _, _ => none
  | fuel + 1, s, i =>
    match requestStep retries s (outcomes i) with
    | .done r => some (r, s)
    | .next s1 => runRequestAux retries outcomes fuel s1 (i + 1)

/-- The iteration bound claimed for the loop: `(retries + 2) + (max(retries, 3) + 1)`. -/
def requestBound (retries : Nat) : Nat :=
  (retries + 2) + (Nat.max retries 3 + 1)

/-- The state `HttpCli::request` starts from: `attempt = 0`, `auth_attempt = 0`,
with the caller's URI and whatever token the shared `auth_info` slot holds. -/
def initReqState (u : MUri) (auth : Bool) : ReqState :=
  { uri := u, attempt := 0, authAttempt := 0, authInfo := auth }

/-- `HttpCli::request` (`mod.rs`, lines 45-134), run with fuel equal to the claimed
iteration bound. -/
def runRequest (retries : Nat) (outcomes : Nat → Outcome) (u : MUri) (auth : Bool) :
    Option (ReqResult × ReqState) :=
  runRequestAux retries outcomes (requestBound retries) (initReqState u auth) 0

/-! Theorems. -/

/-- C1: for the media-type table pair `(Docker, LayerGz)` the claimed JSON
round-trip fails on the code: serialization writes
`application/vnd.docker.image.rootfs.diff.tar.gzip`, but deserialization maps
that string to `(Docker, Layer)`, so `parse(serialize(b))` returns a value whose
`blob_reference_type` is `Layer`, not `LayerGz`. The remaining claim components
hold at this input: the serializer emits the table's string and size and digest
survive the trip. -/
theorem blobref_docker_layergz_roundtrip_broken :
    (BlobReference.toJson
        { blob_reference_type := .LayerGz, specification_type := .Docker,
          size := 7, digest := "sha256:aa" }).bind BlobReference.fromJson =
      some { blob_reference_type := .Layer, specification_type := .Docker,
             size := 7, digest := "sha256:aa" } ∧
    (BlobReference.toJson
        { blob_reference_type := .LayerGz, specification_type := .Docker,
          size := 7, digest := "sha256:aa" }).bind BlobReference.fromJson ≠
      some { blob_reference_type := .LayerGz, specification_type := .Docker,
             size := 7, digest := "sha256:aa" } ∧
    mediaTypeFor .Docker .LayerGz = some "application/vnd.docker.image.rootfs.diff.tar.gzip" ∧
    parseMediaType "application/vnd.docker.image.rootfs.diff.tar.gzip" =
      some (.Docker, .Layer) := by
  refine ⟨rfl, ?_, rfl, rfl⟩
  decide

/-- A concrete manifest used to exhibit the `set_specification_type` bug. -/
def manifestEx : Manifest :=
  { schema_version := 2, name := none, specification_type := .Oci,
    config := { blob_reference_type := .Config, specification_type := .Oci,
                size := 3, digest := "sha256:cc" },
    layers := [{ blob_reference_type := .LayerGz, specification_type := .Oci,
                 size := 4, digest := "sha256:dd" }] }

/-- C2: `set_specification_type` propagates the requested specification into the
config and every layer, but never assigns the manifest's own
`specification_type`; after `set_specification_type(Docker)` on an OCI manifest
the manifest still reports the OCI media type, so the serialized top-level
`mediaType` does not match the requested specification. -/
theorem set_specification_type_skips_own_field :
    (manifestEx.set_specification_type .Docker).config.specification_type = .Docker ∧
    (manifestEx.set_specification_type .Docker).layers.map
        BlobReference.specification_type = [.Docker] ∧
    (manifestEx.set_specification_type .Docker).specification_type = .Oci ∧
    (manifestEx.set_specification_type .Docker).media_type =
      "application/vnd.oci.image.manifest.v1+json" ∧
    ((manifestEx.set_specification_type .Docker).toJson).bind
        (fun j => j.lookup "mediaType") =
      some (.str "application/vnd.oci.image.manifest.v1+json") := by
  refine ⟨rfl, rfl, rfl, rfl, rfl⟩

/-- C9: `update_config` replaces only the `size` and `digest` of the manifest's
config blob reference (the digest becoming `sha256:` followed by the digest's
lowercase hex); the config's `blob_reference_type` and `specification_type` and
the manifest's `schema_version`, `name`, `specification_type` and `layers` are
unchanged. -/
theorem update_config_frame (m : Manifest) (sha : Sha256Value) (len : Nat) :
    (m.update_config sha len).config.size = len ∧
    (m.update_config sha len).config.digest = "sha256:" ++ sha.toHex ∧
    (m.update_config sha len).config.blob_reference_type = m.config.blob_reference_type ∧
    (m.update_config sha len).config.specification_type = m.config.specification_type ∧
    (m.update_config sha len).schema_version = m.schema_version ∧
    (m.update_config sha len).name = m.name ∧
    (m.update_config sha len).specification_type = m.specification_type ∧
    (m.update_config sha len).layers = m.layers := by
  refine ⟨rfl, rfl, rfl, rfl, rfl, rfl, rfl, rfl⟩

/-- C3 counterexample: serializing the default `ConfigDelta` (every optional field
`None`) produces a JSON object that does carry `null` fields — its `created`
field is the JSON value `null` — refuting the claim that `None` fields are
omitted and `null` never written. -/
theorem configdelta_default_serializes_nulls :
    Json.hasNullField (ConfigDelta.toJson ConfigDelta.defaultVal) = true ∧
    Json.lookup (ConfigDelta.toJson ConfigDelta.defaultVal) "created" = some .null := by
  refine ⟨rfl, rfl⟩

/-- `optJson f o` is `null` exactly when `o` is `None`, provided `f` itself never
produces `null`. -/
theorem optJson_null_iff {α : Type} (f : α → Json) (hf : ∀ a, f a ≠ Json.null)
    (o : Option α) : optJson f o = Json.null ↔ o = none := by
  cases o with
  | none => simp [optJson]
  | some a => simpa [optJson] using hf a

theorem strJson_ne_null (s : String) : strJson s ≠ Json.null := by
  intro h
  exact Json.noConfusion h

theorem strListJson_ne_null (l : List String) : strListJson l ≠ Json.null := by
  intro h
  exact Json.noConfusion h

theorem numJson_ne_null (n : Int) : Json.num n ≠ Json.null := by
  intro h
  exact Json.noConfusion h

theorem boolJson_ne_null (b : Bool) : Json.bool b ≠ Json.null := by
  intro h
  exact Json.noConfusion h

theorem unitMapJson_ne_null (m : List (String × Unit)) : unitMapJson m ≠ Json.null := by
  intro h
  exact Json.noConfusion h

theorem strMapJson_ne_null (m : List (String × String)) : strMapJson m ≠ Json.null := by
  intro h
  exact Json.noConfusion h

theorem execConfigJson_ne_null (c : ExecutionConfig) :
    ExecutionConfig.toJson c ≠ Json.null := by
  intro h
  exact Json.noConfusion h

theorem rootFsJson_ne_null (r : RootFs) : RootFs.toJson r ≠ Json.null := by
  intro h
  exact Json.noConfusion h

theorem historyListJson_ne_null (l : List HistoryItem) : historyListJson l ≠ Json.null := by
  intro h
  exact Json.noConfusion h

/-- C3 amended: serialization of `ConfigDelta` (and of the nested
`ExecutionConfig` and `RootFs`) always emits every field, in declaration order
with the serde renames applied, and writes the JSON value `null` for exactly
those optional fields whose value is `None` — nothing is omitted. -/
theorem configdelta_none_fields_serialize_as_null (c : ConfigDelta) (e : ExecutionConfig)
    (r : RootFs) :
    (ConfigDelta.toJson c).topFields.map Prod.fst =
      ["created", "author", "architecture", "os", "os.version", "os.features",
       "variant", "config", "rootfs", "history"] ∧
    (RootFs.toJson r).topFields.map Prod.fst = ["type", "diff_ids"] ∧
    (ExecutionConfig.toJson e).topFields.map Prod.fst =
      ["User", "ExposedPorts", "Env", "Entrypoint", "Cmd", "Volumes", "WorkingDir",
       "Labels", "StopSignal", "Memory", "MemorySwap", "CpuShares", "Healthcheck"] ∧
    (Json.lookup (ConfigDelta.toJson c) "created" = some Json.null ↔ c.created = none) ∧
    (Json.lookup (ConfigDelta.toJson c) "author" = some Json.null ↔ c.author = none) ∧
    (Json.lookup (ConfigDelta.toJson c) "architecture" = some Json.null ↔
      c.architecture = none) ∧
    (Json.lookup (ConfigDelta.toJson c) "os" = some Json.null ↔ c.os = none) ∧
    (Json.lookup (ConfigDelta.toJson c) "os.version" = some Json.null ↔
      c.os_version = none) ∧
    (Json.lookup (ConfigDelta.toJson c) "os.features" = some Json.null ↔
      c.os_features = none) ∧
    (Json.lookup (ConfigDelta.toJson c) "variant" = some Json.null ↔ c.variant = none) ∧
    (Json.lookup (ConfigDelta.toJson c) "config" = some Json.null ↔ c.config = none) ∧
    (Json.lookup (ConfigDelta.toJson c) "rootfs" = some Json.null ↔ c.rootfs = none) ∧
    (Json.lookup (ConfigDelta.toJson c) "history" = some Json.null ↔ c.history = none) ∧
    (Json.lookup (RootFs.toJson r) "type" = some Json.null ↔ r.fs_type = none) ∧
    (Json.lookup (RootFs.toJson r) "diff_ids" = some Json.null ↔ r.diff_ids = none) ∧
    (Json.lookup (ExecutionConfig.toJson e) "User" = some Json.null ↔ e.user = none) ∧
    (Json.lookup (ExecutionConfig.toJson e) "ExposedPorts" = some Json.null ↔
      e.exposed_ports = none) ∧
    (Json.lookup (ExecutionConfig.toJson e) "Env" = some Json.null ↔ e.env = none) ∧
    (Json.lookup (ExecutionConfig.toJson e) "Entrypoint" = some Json.null ↔
      e.entrypoint = none) ∧
    (Json.lookup (ExecutionConfig.toJson e) "Cmd" = some Json.null ↔ e.cmd = none) ∧
    (Json.lookup (ExecutionConfig.toJson e) "Volumes" = some Json.null ↔
      e.volumes = none) ∧
    (Json.lookup (ExecutionConfig.toJson e) "WorkingDir" = some Json.null ↔
      e.working_dir = none) ∧
    (Json.lookup (ExecutionConfig.toJson e) "Labels" = some Json.null ↔
      e.labels = none) ∧
    (Json.lookup (ExecutionConfig.toJson e) "StopSignal" = some Json.null ↔
      e.stop_signal = none) ∧
    (Json.lookup (ExecutionConfig.toJson e) "Memory" = some Json.null ↔
      e.memory = none) ∧
    (Json.lookup (ExecutionConfig.toJson e) "MemorySwap" = some Json.null ↔
      e.memory_swap = none) ∧
    (Json.lookup (ExecutionConfig.toJson e) "CpuShares" = some Json.null ↔
      e.cpu_shares = none) ∧
    (Json.lookup (ExecutionConfig.toJson e) "Healthcheck" = some Json.null ↔
      e.healthcheck = none) := by
  refine ⟨rfl, rfl, rfl, ?_, ?_, ?_, ?_, ?_, ?_, ?_, ?_, ?_, ?_, ?_, ?_, ?_, ?_, ?_, ?_,
         ?_, ?_, ?_, ?_, ?_, ?_, ?_, ?_, ?_⟩
  · show some (optJson strJson c.created) = some Json.null ↔ c.created = none
    simpa using optJson_null_iff strJson strJson_ne_null c.created
  · show some (optJson strJson c.author) = some Json.null ↔ c.author = none
    simpa using optJson_null_iff strJson strJson_ne_null c.author
  · show some (optJson strJson c.architecture) = some Json.null ↔ c.architecture = none
    simpa using optJson_null_iff strJson strJson_ne_null c.architecture
  · show some (optJson strJson c.os) = some Json.null ↔ c.os = none
    simpa using optJson_null_iff strJson strJson_ne_null c.os
  · show some (optJson strJson c.os_version) = some Json.null ↔ c.os_version = none
    simpa using optJson_null_iff strJson strJson_ne_null c.os_version
  · show some (optJson strJson c.os_features) = some Json.null ↔ c.os_features = none
    simpa using optJson_null_iff strJson strJson_ne_null c.os_features
  · show some (optJson strJson c.variant) = some Json.null ↔ c.variant = none
    simpa using optJson_null_iff strJson strJson_ne_null c.variant
  · show some (optJson ExecutionConfig.toJson c.config) = some Json.null ↔ c.config = none
    simpa using optJson_null_iff ExecutionConfig.toJson execConfigJson_ne_null c.config
  · show some (optJson RootFs.toJson c.rootfs) = some Json.null ↔ c.rootfs = none
    simpa using optJson_null_iff RootFs.toJson rootFsJson_ne_null c.rootfs
  · show some (optJson historyListJson c.history) = some Json.null ↔ c.history = none
    simpa using optJson_null_iff historyListJson historyListJson_ne_null c.history
  · show some (optJson strJson r.fs_type) = some Json.null ↔ r.fs_type = none
    simpa using optJson_null_iff strJson strJson_ne_null r.fs_type
  · show some (optJson strListJson r.diff_ids) = some Json.null ↔ r.diff_ids = none
    simpa using optJson_null_iff strListJson strListJson_ne_null r.diff_ids
  · show some (optJson strJson e.user) = some Json.null ↔ e.user = none
    simpa using optJson_null_iff strJson strJson_ne_null e.user
  · show some (optJson unitMapJson e.exposed_ports) = some Json.null ↔
      e.exposed_ports = none
    simpa using optJson_null_iff unitMapJson unitMapJson_ne_null e.exposed_ports
  · show some (optJson strListJson e.env) = some Json.null ↔ e.env = none
    simpa using optJson_null_iff strListJson strListJson_ne_null e.env
  · show some (optJson strListJson e.entrypoint) = some Json.null ↔ e.entrypoint = none
    simpa using optJson_null_iff strListJson strListJson_ne_null e.entrypoint
  · show some (optJson strListJson e.cmd) = some Json.null ↔ e.cmd = none
    simpa using optJson_null_iff strListJson strListJson_ne_null e.cmd
  · show some (optJson strListJson e.volumes) = some Json.null ↔ e.volumes = none
    simpa using optJson_null_iff strListJson strListJson_ne_null e.volumes
  · show some (optJson strJson e.working_dir) = some Json.null ↔ e.working_dir = none
    simpa using optJson_null_iff strJson strJson_ne_null e.working_dir
  · show some (optJson strMapJson e.labels) = some Json.null ↔ e.labels = none
    simpa using optJson_null_iff strMapJson strMapJson_ne_null e.labels
  · show some (optJson strJson e.stop_signal) = some Json.null ↔ e.stop_signal = none
    simpa using optJson_null_iff strJson strJson_ne_null e.stop_signal
  · show some (optJson Json.num e.memory) = some Json.null ↔ e.memory = none
    simpa using optJson_null_iff Json.num numJson_ne_null e.memory
  · show some (optJson Json.num e.memory_swap) = some Json.null ↔ e.memory_swap = none
    simpa using optJson_null_iff Json.num numJson_ne_null e.memory_swap
  · show some (optJson Json.num e.cpu_shares) = some Json.null ↔ e.cpu_shares = none
    simpa using optJson_null_iff Json.num numJson_ne_null e.cpu_shares
  · show some (optJson strMapJson e.healthcheck) = some Json.null ↔ e.healthcheck = none
    simpa using optJson_null_iff strMapJson strMapJson_ne_null e.healthcheck

/-- C6: the POST path `try_copy_from` builds beneath `/v2/<repository>` is
`/uploads/?mount=<digest>from=<source>`: it lacks both the `/blobs` segment and
the `&` separator the claim (and the registry API) require, so the issued URI
differs from `/v2/<repo>/blobs/uploads/?mount=<d>&from=<s>`. The status handling
does match the claim: success is reported exactly for a 201 response. -/
theorem try_copy_from_path_malformed :
    tryCopyFromUri "repo" "srcreg" "sha256:abc" =
      some "/v2/repo/uploads/?mount=sha256:abcfrom=srcreg" ∧
    tryCopyFromUri "repo" "srcreg" "sha256:abc" ≠
      some "/v2/repo/blobs/uploads/?mount=sha256:abc&from=srcreg" ∧
    (∀ status : Nat, tryCopyFromStatus status = .ok true ↔ status = 201) := by
  refine ⟨rfl, by decide, ?_⟩
  intro status
  unfold tryCopyFromStatus
  by_cases h404 : status = 404
  · subst h404
    simp
  · by_cases h201 : status = 201
    · subst h201
      simp
    · simp [h404, h201]

/-- C7 counterexample: `download_blob` accepts a body whose recomputed digest
matches even when the received byte count (here 2) differs from the declared
length (here 999), returning `Ok` — refuting the claimed length check. The sha
oracle is the constant digest `[1]`, rendered `sha256:01`. -/
theorem download_blob_ignores_length_mismatch :
    download_blob (fun _ => ⟨[1]⟩) 200 [[5, 6]] "sha256:01" 999 = .ok () ∧
    ([[5, 6]] : List (List Nat)).flatten.length = 2 ∧
    (999 : Nat) ≠ 2 := by
  refine ⟨rfl, rfl, by decide⟩

/-- C7 amended: `download_blob` ignores the declared length entirely — its result
is the same for any two declared lengths — and on a 200 response it succeeds
exactly when the expected digest equals `sha256:` plus the lowercase hex of the
recomputed digest of the received bytes; a digest mismatch (and any non-200
status) is an error. -/
theorem download_blob_checks_digest_only (shaFn : List Nat → Sha256Value) (status : Nat)
    (chunks : List (List Nat)) (digest : String) (len1 len2 : Nat) :
    download_blob shaFn status chunks digest len1 =
      download_blob shaFn status chunks digest len2 ∧
    (download_blob shaFn 200 chunks digest len1 = .ok () ↔
      digest = "sha256:" ++ (shaFn chunks.flatten).toHex) := by
  constructor
  · rfl
  · unfold download_blob
    by_cases h : digest = "sha256:" ++ (shaFn chunks.flatten).toHex
    · simp [h]
    · simp [h]

/-- Concrete uncompressed digest of layer `l1` (hex `01`). -/
def shaU1 : Sha256Value := ⟨[1]⟩

/-- Concrete uncompressed digest of layer `l2` (hex `02`). -/
def shaU2 : Sha256Value := ⟨[2]⟩

/-- Concrete compressed digest of layer `l1` (hex `03`). -/
def shaC1 : Sha256Value := ⟨[3]⟩

/-- Concrete compressed digest of layer `l2` (hex `04`). -/
def shaC2 : Sha256Value := ⟨[4]⟩

/-- A concrete merge environment: every path exists, nothing but `m` parses as a
manifest, and the two layer files have fixed digests. -/
def mergeEnvEx : MergeEnv :=
  { pathExists := fun _ => true,
    parseConfig := fun _ => none,
    parseManifest := fun p =>
      if p = "m" then
        some { schema_version := 2, name := none, specification_type := .Docker,
               config := { blob_reference_type := .Config, specification_type := .Docker,
                           size := 5, digest := "sha256:cf" },
               layers := [{ blob_reference_type := .LayerGz,
                            specification_type := .Docker,
                            size := 9, digest := "sha256:bb" }] }
      else none,
    hashCompressed := fun p => if p = "l1" then some (shaC1, 10) else some (shaC2, 11),
    hashUncompressed := fun p => if p = "l1" then some (shaU1, 20) else some (shaU2, 21) }

/-- The base-image manifest `mergeEnvEx` parses at path `m`. -/
def baseManifestEx : Manifest :=
  { schema_version := 2, name := none, specification_type := .Docker,
    config := { blob_reference_type := .Config, specification_type := .Docker,
                size := 5, digest := "sha256:cf" },
    layers := [{ blob_reference_type := .LayerGz, specification_type := .Docker,
                 size := 9, digest := "sha256:bb" }] }

/-- A `MergeConfig` with two data layers and no remote metadata. -/
def mergeConfigTwoLayers : MergeConfig :=
  { infos := [{ data := some { short_path := "l1", path := "l1" }, config := none },
              { data := some { short_path := "l2", path := "l2" }, config := none }],
    remote_metadata := none }

/-- C4: merging two data layers with no base config yields a `ConfigDelta` whose
`rootfs.diff_ids` lists, in info order, `sha256:<hex>` of each layer's
uncompressed digest — but whose `rootfs.type` is `None`, not `"layers"`:
`RootFs::add_layer` never sets `fs_type`, so the produced config is rejected by
the code's own `RootFs::valid_config` and contradicts the claimed
`type = "layers"`. -/
theorem merge_rootfs_type_left_unset :
    merge mergeEnvEx mergeConfigTwoLayers none [] =
      .ok ({ ConfigDelta.defaultVal with
             rootfs := some { fs_type := none,
                              diff_ids := some ["sha256:01", "sha256:02"] } },
           { Manifest.defaultVal with
             layers := [{ blob_reference_type := .LayerGz, specification_type := .Oci,
                          size := 10, digest := "sha256:03" },
                        { blob_reference_type := .LayerGz, specification_type := .Oci,
                          size := 11, digest := "sha256:04" }] },
           [{ content := { short_path := "l1", path := "l1" }, sha256 := shaC1,
              inner_sha_v := shaU1, compressed_size := 10, uncompressed_size := 20 },
            { content := { short_path := "l2", path := "l2" }, sha256 := shaC2,
              inner_sha_v := shaU2, compressed_size := 11, uncompressed_size := 21 }]) ∧
    (RootFs.fs_type { fs_type := none, diff_ids := some ["sha256:01", "sha256:02"] } ≠
      some "layers") := by
  refine ⟨rfl, by decide⟩

/-- A `MergeConfig` whose remote metadata names the base manifest `m` and whose
single info carries the data layer `l1`. -/
def mergeConfigWithRemote : MergeConfig :=
  { infos := [{ data := some { short_path := "l1", path := "l1" }, config := none }],
    remote_metadata := some { config := none,
                              manifest := some { short_path := "m", path := "m" },
                              registry := none, repository := none, digest := none } }

/-- C5 counterexample: with `remote_metadata.manifest` set to a manifest that
already has a layer, `merge` succeeds — the incoming manifest silently replaces
the accumulated (default, empty-layer) manifest and the data layer is appended
after its layers. No base-conflict error is raised: the only layer-conflict
check in the sources lives in the unused `merge_manifest` helpers, and `merge`
itself (merge_outputs.rs lines 62-72) assigns unconditionally. -/
theorem merge_remote_manifest_no_conflict_error :
    merge mergeEnvEx mergeConfigWithRemote none [] =
      .ok ({ ConfigDelta.defaultVal with
             rootfs := some { fs_type := none, diff_ids := some ["sha256:01"] } },
           { baseManifestEx with
             layers := baseManifestEx.layers ++
               [{ blob_reference_type := .LayerGz, specification_type := .Docker,
                  size := 10, digest := "sha256:03" }] },
           [{ content := { short_path := "l1", path := "l1" }, sha256 := shaC1,
              inner_sha_v := shaU1, compressed_size := 10, uncompressed_size := 20 }]) := by
  rfl

/-- One main-loop iteration only ever appends to the manifest's layer list; every
other manifest field passes through unchanged. -/
theorem processInfo_manifest_evolution (env : MergeEnv) (rsp : Option String)
    (st : MergeState) (info : Info) (st1 : MergeState)
    (h : processInfo env rsp st info = .ok st1) :
    st1.2.1.schema_version = st.2.1.schema_version ∧
    st1.2.1.name = st.2.1.name ∧
    st1.2.1.specification_type = st.2.1.specification_type ∧
    st1.2.1.config = st.2.1.config ∧
    ∃ t, st1.2.1.layers = st.2.1.layers ++ t := by
  unfold processInfo at h
  cases hd : info.data with
  | none =>
    simp only [hd] at h
    cases h
    exact ⟨rfl, rfl, rfl, rfl, [], by simp⟩
  | some layer =>
    simp only [hd] at h
    by_cases hp : env.pathExists (relAsPath rsp layer.path) = true
    · simp only [hp, if_true] at h
      cases hc : env.hashCompressed (relAsPath rsp layer.path) with
      | none =>
        simp only [hc] at h
        exact Except.noConfusion h
      | some ch =>
        simp only [hc] at h
        cases hu : env.hashUncompressed (relAsPath rsp layer.path) with
        | none =>
          simp only [hu] at h
          exact Except.noConfusion h
        | some uh =>
          simp only [hu] at h
          cases h
          refine ⟨rfl, rfl, rfl, rfl, ?_⟩
          exact ⟨[{ blob_reference_type := .LayerGz,
                    specification_type := st.2.1.specification_type,
                    size := ch.2, digest := "sha256:" ++ ch.1.toHex }], rfl⟩
    · simp only [Bool.not_eq_true] at hp
      simp only [hp, Bool.false_eq_true, if_false] at h
      exact Except.noConfusion h

/-- Folding the main loop over any list of infos only appends manifest layers. -/
theorem foldlM_processInfo_manifest (env : MergeEnv) (rsp : Option String) :
    ∀ (infos : List Info) (st res : MergeState),
      infos.foldlM (processInfo env rsp) st = .ok res →
      res.2.1.schema_version = st.2.1.schema_version ∧
      res.2.1.name = st.2.1.name ∧
      res.2.1.specification_type = st.2.1.specification_type ∧
      res.2.1.config = st.2.1.config ∧
      ∃ t, res.2.1.layers = st.2.1.layers ++ t := by
  intro infos
  induction infos with
  | nil =>
    intro st res h
    cases h
    exact ⟨rfl, rfl, rfl, rfl, [], by simp⟩
  | cons i is ih =>
    intro st res h
    rw [List.foldlM_cons] at h
    cases hstep : processInfo env rsp st i with
    | error e =>
      rw [hstep] at h
      cases h
    | ok st1 =>
      rw [hstep] at h
      have hbind : is.foldlM (processInfo env rsp) st1 = .ok res := h
      obtain ⟨h1, h2, h3, h4, t1, ht1⟩ := processInfo_manifest_evolution env rsp st i st1 hstep
      obtain ⟨g1, g2, g3, g4, t2, gt2⟩ := ih st1 res hbind
      refine ⟨g1.trans h1, g2.trans h2, g3.trans h3, g4.trans h4, t1 ++ t2, ?_⟩
      rw [gt2, ht1, List.append_assoc]

/-- C5 amended: when `remote_metadata.manifest` is set and parses, `merge` does not
fail with a base-conflict error; the parsed incoming manifest unconditionally
replaces the manifest accumulated so far — which at that point is always the
default manifest with an empty layer list — so any successful result carries the
incoming manifest's `schema_version`, `specification_type` and `config`, with
the data layers appended after the incoming layer list. -/
theorem merge_remote_manifest_replaces (env : MergeEnv) (mc : MergeConfig)
    (rsp : Option String) (externals : List ExecutionConfig) (rm : RemoteMetadata)
    (pp : PathPair) (M : Manifest) (cfg : ConfigDelta) (man : Manifest)
    (ups : List OutputLayer)
    (hrm : mc.remote_metadata = some rm) (hmp : rm.manifest = some pp)
    (hex : env.pathExists (relAsPath rsp pp.path) = true)
    (hpm : env.parseManifest (relAsPath rsp pp.path) = some M)
    (hok : merge env mc rsp externals = .ok (cfg, man, ups)) :
    man.schema_version = M.schema_version ∧
    man.name = M.name ∧
    man.specification_type = M.specification_type ∧
    man.config = M.config ∧
    ∃ t, man.layers = M.layers ++ t := by
  unfold merge initBase at hok
  simp only [hrm] at hok
  have hman : loadRemoteManifest env rsp rm = .ok M := by
    unfold loadRemoteManifest
    simp only [hmp, hex, if_true, hpm]
  cases hcfg : loadRemoteConfig env rsp rm with
  | error e =>
    simp only [hcfg] at hok
    exact Except.noConfusion hok
  | ok c0 =>
    simp only [hcfg, hman] at hok
    cases hpass : checkPassOne env mc rsp with
    | error e =>
      simp only [hpass] at hok
      exact Except.noConfusion hok
    | ok u =>
      simp only [hpass] at hok
      exact foldlM_processInfo_manifest env rsp mc.infos _ (cfg, man, ups) hok

/-- Witness for the C5 amended theorem: at the concrete environment and merge
configuration above, the incoming base manifest's fields survive into the merge
result. -/
theorem merge_remote_manifest_replaces_witness :
    ({ baseManifestEx with
       layers := baseManifestEx.layers ++
         [{ blob_reference_type := .LayerGz, specification_type := .Docker,
            size := 10, digest := "sha256:03" }] } : Manifest).schema_version =
      baseManifestEx.schema_version ∧
    ({ baseManifestEx with
       layers := baseManifestEx.layers ++
         [{ blob_reference_type := .LayerGz, specification_type := .Docker,
            size := 10, digest := "sha256:03" }] } : Manifest).specification_type =
      baseManifestEx.specification_type := by
  have h := merge_remote_manifest_replaces mergeEnvEx mergeConfigWithRemote none []
    { config := none, manifest := some { short_path := "m", path := "m" },
      registry := none, repository := none, digest := none }
    { short_path := "m", path := "m" } baseManifestEx
    { ConfigDelta.defaultVal with
      rootfs := some { fs_type := none, diff_ids := some ["sha256:01"] } }
    { baseManifestEx with
      layers := baseManifestEx.layers ++
        [{ blob_reference_type := .LayerGz, specification_type := .Docker,
           size := 10, digest := "sha256:03" }] }
    [{ content := { short_path := "l1", path := "l1" }, sha256 := shaC1,
       inner_sha_v := shaU1, compressed_size := 10, uncompressed_size := 20 }]
    rfl rfl rfl rfl rfl
  exact ⟨h.1, h.2.2.1⟩

/-- Every continuing iteration of the loop increases `attempt + auth_attempt` by
exactly one, and continuing requires both counters within their caps; hence once
`attempt + auth_attempt` exceeds `retries + max(retries, 3)`, any outcome ends
the loop. -/
theorem requestStep_done_of_exhausted (retries : Nat) (s : ReqState) (o : Outcome)
    (h : retries + Nat.max retries 3 < s.attempt + s.authAttempt) :
    ∃ r, requestStep retries s o = .done r := by
  have hcase : s.attempt > retries ∨ s.authAttempt > Nat.max retries 3 := by omega
  cases o with
  | ok => exact ⟨.success, rfl⟩
  | redirect p =>
    refine ⟨.failed .redirection, ?_⟩
    simp only [requestStep, if_pos hcase]
  | connectError =>
    refine ⟨.failed .connect, ?_⟩
    simp only [requestStep, if_pos hcase]
  | serverError =>
    refine ⟨.failed .server, ?_⟩
    simp only [requestStep, if_pos hcase]
  | hyperError =>
    refine ⟨.failed .hyper, ?_⟩
    simp only [requestStep, if_pos hcase]
  | anyhowError =>
    refine ⟨.failed .anyhow, ?_⟩
    simp only [requestStep, if_pos hcase]
  | authFailure flow =>
    refine ⟨.failed .auth, ?_⟩
    simp only [requestStep, if_pos hcase]

/-- A continuing step adds exactly one to the combined counter total. -/
theorem requestStep_next_total (retries : Nat) (s : ReqState) (o : Outcome)
    (s1 : ReqState) (h : requestStep retries s o = .next s1) :
    s1.attempt + s1.authAttempt = s.attempt + s.authAttempt + 1 := by
  by_cases hb : s.attempt > retries ∨ s.authAttempt > Nat.max retries 3
  · cases o with
    | ok =>
      simp only [requestStep] at h
      exact StepResult.noConfusion h
    | redirect p =>
      simp only [requestStep, if_pos hb] at h
      exact StepResult.noConfusion h
    | connectError =>
      simp only [requestStep, if_pos hb] at h
      exact StepResult.noConfusion h
    | serverError =>
      simp only [requestStep, if_pos hb] at h
      exact StepResult.noConfusion h
    | hyperError =>
      simp only [requestStep, if_pos hb] at h
      exact StepResult.noConfusion h
    | anyhowError =>
      simp only [requestStep, if_pos hb] at h
      exact StepResult.noConfusion h
    | authFailure flow =>
      simp only [requestStep, if_pos hb] at h
      exact StepResult.noConfusion h
  · cases o with
    | ok =>
      simp only [requestStep] at h
      exact StepResult.noConfusion h
    | redirect p =>
      cases p with
      | none =>
        simp only [requestStep, if_neg hb] at h
        exact StepResult.noConfusion h
      | some u =>
        simp only [requestStep, if_neg hb, StepResult.next.injEq] at h
        subst h
        dsimp only
        omega
    | connectError =>
      simp only [requestStep, if_neg hb, StepResult.next.injEq] at h
      subst h
      dsimp only
      omega
    | serverError =>
      simp only [requestStep, if_neg hb, StepResult.next.injEq] at h
      subst h
      dsimp only
      omega
    | hyperError =>
      simp only [requestStep, if_neg hb] at h
      exact StepResult.noConfusion h
    | anyhowError =>
      simp only [requestStep, if_neg hb] at h
      exact StepResult.noConfusion h
    | authFailure flow =>
      cases flow with
      | true =>
        simp only [requestStep, if_neg hb, if_true, StepResult.next.injEq] at h
        subst h
        dsimp only
        omega
      | false =>
        simp only [requestStep, if_neg hb, if_false] at h
        exact StepResult.noConfusion h

/-- With fuel exceeding the remaining counter headroom, the loop always finishes. -/
theorem runRequestAux_isSome (retries : Nat) (outcomes : Nat → Outcome) :
    ∀ (fuel : Nat) (s : ReqState) (i : Nat),
      retries + Nat.max retries 3 + 1 ≤ s.attempt + s.authAttempt + fuel →
      (runRequestAux retries outcomes (fuel + 1) s i).isSome = true := by
  intro fuel
  induction fuel with
  | zero =>
    intro s i hs
    have hdone := requestStep_done_of_exhausted retries s (outcomes i) (by omega)
    obtain ⟨r, hr⟩ := hdone
    simp [runRequestAux, hr]
  | succ fuel ih =>
    intro s i hs
    cases hstep : requestStep retries s (outcomes i) with
    | done r =>
      simp [runRequestAux, hstep]
    | next s1 =>
      have htot := requestStep_next_total retries s (outcomes i) s1 hstep
      have : (runRequestAux retries outcomes (fuel + 1) s1 (i + 1)).isSome = true :=
        ih s1 (i + 1) (by omega)
      simpa [runRequestAux, hstep] using this

/-- C10: the retry loop of `HttpCli::request` terminates for every sequence of
classified outcomes within `(retries + 2) + (max(retries, 3) + 1)` iterations:
each iteration either returns, breaks with a terminal error, or increments one of
the two bounded counters (a redirect consumes a unit of the main budget exactly
like connect and 5xx errors do), so running the loop with that much fuel always
produces a result. -/
theorem request_loop_terminates (retries : Nat) (outcomes : Nat → Outcome) (u : MUri)
    (auth : Bool) :
    (runRequest retries outcomes u auth).isSome = true ∧
    (∀ (s : ReqState) (v : MUri),
      (requestStep retries s (.redirect (some v)) = .done (.failed .redirection) ∨
        requestStep retries s (.redirect (some v)) =
          .next { uri := rebaseUri s.uri v, attempt := s.attempt + 1,
                  authAttempt := s.authAttempt, authInfo := false }) ∧
      (requestStep retries s .connectError = .done (.failed .connect) ∨
        requestStep retries s .connectError =
          .next { uri := s.uri, attempt := s.attempt + 1,
                  authAttempt := s.authAttempt, authInfo := s.authInfo }) ∧
      (requestStep retries s .serverError = .done (.failed .server) ∨
        requestStep retries s .serverError =
          .next { uri := s.uri, attempt := s.attempt + 1,
                  authAttempt := s.authAttempt, authInfo := s.authInfo })) := by
  constructor
  · unfold runRequest
    have hb : requestBound retries = (retries + Nat.max retries 3 + 2) + 1 := by
      unfold requestBound
      omega
    rw [hb]
    exact runRequestAux_isSome retries outcomes (retries + Nat.max retries 3 + 2)
      (initReqState u auth) 0 (by simp [initReqState])
  · intro s v
    by_cases hs : s.attempt > retries ∨ s.authAttempt > Nat.max retries 3
    · refine ⟨Or.inl ?_, Or.inl ?_, Or.inl ?_⟩ <;> simp only [requestStep, if_pos hs]
    · refine ⟨Or.inr ?_, Or.inr ?_, Or.inr ?_⟩ <;> simp only [requestStep, if_neg hs]

/-- Any state a continuing step produces respects the two counter caps: the main
counter never exceeds `retries + 1` and the auth counter never exceeds
`max(retries, 3) + 1`. -/
theorem requestStep_next_bounds (retries : Nat) (s : ReqState) (o : Outcome)
    (s1 : ReqState) (h : requestStep retries s o = .next s1) :
    s1.attempt ≤ retries + 1 ∧ s1.authAttempt ≤ Nat.max retries 3 + 1 := by
  by_cases hb : s.attempt > retries ∨ s.authAttempt > Nat.max retries 3
  · cases o with
    | ok =>
      simp only [requestStep] at h
      exact StepResult.noConfusion h
    | redirect p =>
      simp only [requestStep, if_pos hb] at h
      exact StepResult.noConfusion h
    | connectError =>
      simp only [requestStep, if_pos hb] at h
      exact StepResult.noConfusion h
    | serverError =>
      simp only [requestStep, if_pos hb] at h
      exact StepResult.noConfusion h
    | hyperError =>
      simp only [requestStep, if_pos hb] at h
      exact StepResult.noConfusion h
    | anyhowError =>
      simp only [requestStep, if_pos hb] at h
      exact StepResult.noConfusion h
    | authFailure flow =>
      simp only [requestStep, if_pos hb] at h
      exact StepResult.noConfusion h
  · have hbne : s.attempt ≤ retries ∧ s.authAttempt ≤ Nat.max retries 3 := by omega
    cases o with
    | ok =>
      simp only [requestStep] at h
      exact StepResult.noConfusion h
    | redirect p =>
      cases p with
      | none =>
        simp only [requestStep, if_neg hb] at h
        exact StepResult.noConfusion h
      | some u =>
        simp only [requestStep, if_neg hb, StepResult.next.injEq] at h
        subst h
        dsimp only
        omega
    | connectError =>
      simp only [requestStep, if_neg hb, StepResult.next.injEq] at h
      subst h
      dsimp only
      omega
    | serverError =>
      simp only [requestStep, if_neg hb, StepResult.next.injEq] at h
      subst h
      dsimp only
      omega
    | hyperError =>
      simp only [requestStep, if_neg hb] at h
      exact StepResult.noConfusion h
    | anyhowError =>
      simp only [requestStep, if_neg hb] at h
      exact StepResult.noConfusion h
    | authFailure flow =>
      cases flow with
      | true =>
        simp only [requestStep, if_neg hb, if_true, StepResult.next.injEq] at h
        subst h
        dsimp only
        omega
      | false =>
        simp only [requestStep, if_neg hb, if_false] at h
        exact StepResult.noConfusion h

/-- Counter caps are preserved along the whole run: the loop ends in a state whose
counters respect them whenever the starting state does. -/
theorem runRequestAux_bounds (retries : Nat) (outcomes : Nat → Outcome) :
    ∀ (fuel : Nat) (s : ReqState) (i : Nat) (r : ReqResult) (s1 : ReqState),
      s.attempt ≤ retries + 1 → s.authAttempt ≤ Nat.max retries 3 + 1 →
      runRequestAux retries outcomes fuel s i = some (r, s1) →
      s1.attempt ≤ retries + 1 ∧ s1.authAttempt ≤ Nat.max retries 3 + 1 := by
  intro fuel
  induction fuel with
  | zero =>
    intro s i r s1 h1 h2 h
    exact Option.noConfusion h
  | succ fuel ih =>
    intro s i r s1 h1 h2 h
    rw [runRequestAux] at h
    cases hstep : requestStep retries s (outcomes i) with
    | done r0 =>
      rw [hstep] at h
      cases h
      exact ⟨h1, h2⟩
    | next s2 =>
      rw [hstep] at h
      obtain ⟨g1, g2⟩ := requestStep_next_bounds retries s (outcomes i) s2 hstep
      exact ih s2 (i + 1) r s1 g1 g2 h

/-- A run in which every request classifies as a successful-token auth failure:
the token flow runs until the auth counter passes `max(retries, 3)`, the main
counter stays at zero, and the loop surfaces the auth failure. -/
theorem runRequestAux_allAuth (retries : Nat) (outcomes : Nat → Outcome)
    (hout : ∀ i, outcomes i = .authFailure true) :
    ∀ (fuel k i : Nat) (u : MUri) (b : Bool),
      k ≤ Nat.max retries 3 → Nat.max retries 3 + 2 - k ≤ fuel →
      runRequestAux retries outcomes fuel
          { uri := u, attempt := 0, authAttempt := k, authInfo := b } i =
        some (.failed .auth,
          { uri := u,
            attempt := 0,
            authAttempt := Nat.max retries 3 + 1,
            authInfo := true }) := by
  intro fuel
  induction fuel with
  | zero =>
    intro k i u b hk hf
    omega
  | succ fuel ih =>
    intro k i u b hk hf
    have hguard : ¬((0 : Nat) > retries ∨ k > Nat.max retries 3) := by omega
    simp only [runRequestAux, hout]
    have hstep : requestStep retries
        { uri := u, attempt := 0, authAttempt := k, authInfo := b }
        (.authFailure true) =
        .next { uri := u, attempt := 0, authAttempt := k + 1, authInfo := true } := by
      simp only [requestStep, if_neg hguard, if_true]
    rw [hstep]
    by_cases hke : k = Nat.max retries 3
    · subst hke
      cases fuel with
      | zero => omega
      | succ fuel1 =>
        have hguard1 : ((0 : Nat) > retries ∨
            Nat.max retries 3 + 1 > Nat.max retries 3) := by omega
        simp only [runRequestAux, hout]
        have hstep1 : requestStep retries
            { uri := u, attempt := 0, authAttempt := Nat.max retries 3 + 1,
              authInfo := true } (.authFailure true) = .done (.failed .auth) := by
          simp only [requestStep, if_pos hguard1]
        rw [hstep1]
    · exact ih (k + 1) (i + 1) u true (by omega) (by omega)

/-- C8: an `AuthFailure` outcome (401 with a parseable bearer challenge) triggers
the token flow and never consumes the main retry budget — within budget its step
keeps `attempt` unchanged (the code's `attempt + 1 - 1`), stores the token, and
counts only `auth_attempt`. Along every run the main counter stays at most
`retries + 1` and the auth counter at most `max(retries, 3) + 1` (continuing
requires `auth_attempt ≤ max(retries, 3)`, the separate cap), and when every
response is such an auth failure the request surfaces the auth failure once the
cap is exceeded. -/
theorem request_auth_budget (retries : Nat) (outcomes : Nat → Outcome) (u : MUri)
    (auth : Bool) (r : ReqResult) (s1 : ReqState)
    (h : runRequest retries outcomes u auth = some (r, s1)) :
    s1.attempt ≤ retries + 1 ∧ s1.authAttempt ≤ Nat.max retries 3 + 1 ∧
    (∀ s0 : ReqState,
      requestStep retries s0 (.authFailure true) = .done (.failed .auth) ∨
        requestStep retries s0 (.authFailure true) =
          .next { uri := s0.uri, attempt := s0.attempt,
                  authAttempt := s0.authAttempt + 1, authInfo := true }) ∧
    ((∀ i, outcomes i = .authFailure true) →
      r = .failed .auth ∧ s1.attempt = 0 ∧
      s1.authAttempt = Nat.max retries 3 + 1) := by
  refine ⟨?_, ?_, ?_, ?_⟩
  · exact (runRequestAux_bounds retries outcomes (requestBound retries)
      (initReqState u auth) 0 r s1 (by simp [initReqState]) (by simp [initReqState]) h).1
  · exact (runRequestAux_bounds retries outcomes (requestBound retries)
      (initReqState u auth) 0 r s1 (by simp [initReqState]) (by simp [initReqState]) h).2
  · intro s0
    by_cases hb : s0.attempt > retries ∨ s0.authAttempt > Nat.max retries 3
    · left
      simp only [requestStep, if_pos hb]
    · right
      simp only [requestStep, if_neg hb, if_true]
      have : s0.attempt + 1 - 1 = s0.attempt := by omega
      rw [this]
  · intro hout
    have hrun := runRequestAux_allAuth retries outcomes hout (requestBound retries) 0 0 u
      auth (by omega) (by unfold requestBound; omega)
    have heq : runRequest retries outcomes u auth =
        some (.failed .auth,
          { uri := u, attempt := 0, authAttempt := Nat.max retries 3 + 1,
            authInfo := true }) := hrun
    rw [heq] at h
    have h1 := Option.some.inj h
    have hr : ReqResult.failed .auth = r := congrArg Prod.fst h1
    have hs :
        ({ uri := u,
           attempt := 0,
           authAttempt := Nat.max retries 3 + 1,
           authInfo := true } : ReqState) = s1 := congrArg Prod.snd h1
    subst hr
    subst hs
    exact ⟨rfl, rfl, rfl⟩

/-- Witness for the C8 theorem: with `retries = 0` and every response an auth
failure, the run ends with the auth failure surfaced, the main counter still
zero and the auth counter at `max(0, 3) + 1 = 4`. -/
theorem request_auth_budget_witness :
    (ReqState.mk { host := some "registry", pathAndQuery := "/v2/" } 0 4 true).attempt ≤
        0 + 1 ∧
    (ReqState.mk { host := some "registry", pathAndQuery := "/v2/" } 0 4 true).authAttempt ≤
        Nat.max 0 3 + 1 := by
  have h : runRequest 0 (fun _ => Outcome.authFailure true)
      { host := some "registry", pathAndQuery := "/v2/" } false =
      some (.failed .auth,
        ReqState.mk { host := some "registry", pathAndQuery := "/v2/" } 0 4 true) := rfl
  have hc := request_auth_budget 0 (fun _ => Outcome.authFailure true)
    { host := some "registry", pathAndQuery := "/v2/" } false (.failed .auth)
    (ReqState.mk { host := some "registry", pathAndQuery := "/v2/" } 0 4 true) h
  exact ⟨hc.1, hc.2.1⟩

end Minidock
